import Mathlib

/-!
Verification of the PRG address-point GML processing pipeline
(`process_gml.py`, `download_and_unpack.py`).

The pipeline reads Polish national address-register (PRG) XML/GML files
into a fixed schema, filters closed / planned address versions (in one
mode), parses and reprojects the point geometry, projects columns for one
of two output modes, and writes a single geoparquet file.

A Spark `DataFrame` is modelled as a Lean `List` of typed rows; each
pipeline stage is a total function on such lists (fallible stages return
`Except`).  Spark SQL three-valued boolean logic is modelled explicitly by
`SqlBool`.
-/

/-- Spark SQL boolean values: true, false, or NULL (three-valued logic). -/
inductive SqlBool
  | tt
  | ff
  | nl
deriving DecidableEq

/-- A `DataFrame.where`/`filter` keeps a row iff its predicate evaluates to
SQL TRUE; both FALSE and NULL drop the row. -/
def sqlWhereKeep : SqlBool → Bool
  | SqlBool.tt => true
  | SqlBool.ff => false
  | SqlBool.nl => false

/-- Spark `Column.isNull`: never NULL-valued, true exactly on SQL NULL. -/
def sqlIsNull {α : Type} : Option α → SqlBool
  | none => SqlBool.tt
  | some _ => SqlBool.ff

/-- Spark `!=` (`<>`) on string columns: NULL-propagating inequality. -/
def sqlNe (a b : Option String) : SqlBool :=
  match a, b with
  | some x, some y => if x = y then SqlBool.ff else SqlBool.tt
  | _, _ => SqlBool.nl

/-- Spark timestamps, modelled as an integer epoch offset. -/
abbrev Timestamp := Int

/-- Spark dates, modelled as an integer day offset. -/
abbrev PDate := Int

/-- Schema node `bt:BT_Identyfikator`: the IIP compound identifier. -/
structure BT_Identyfikator where
  lokalnyId : Option String
  przestrzenNazw : Option String
  wersjaId : Option Timestamp
deriving DecidableEq

/-- Schema node `prg-ad:idIIP` (a single-field wrapper struct). -/
structure IdIIP where
  bt_BT_Identyfikator : Option BT_Identyfikator
deriving DecidableEq

/-- Schema node `bt:BT_CyklZyciaInfo`: object-version lifecycle. -/
structure CyklZyciaInfo where
  poczatekWersjiObiektu : Option Timestamp
  koniecWersjiObiektu : Option Timestamp
deriving DecidableEq

/-- Schema node `prg-ad:cyklZycia` (a single-field wrapper struct). -/
structure CyklZycia where
  bt_BT_CyklZyciaInfo : Option CyklZyciaInfo
deriving DecidableEq

/-- Schema node for an `_xlink:href` cross reference. -/
structure XlinkRef where
  xlink_href : Option String
deriving DecidableEq

/-- Schema node `gml:Point` holding the raw `gml:pos` text. -/
structure GmlPoint where
  gml_pos : Option String
deriving DecidableEq

/-- Schema node `prg-ad:pozycja`. -/
structure Pozycja where
  gml_Point : Option GmlPoint
deriving DecidableEq

/-- One parsed `prg-ad:PRG_PunktAdresowy` record, with exactly the fields of
the fixed schema declared in `process_gml.py` (every Spark field is
nullable, hence `Option`). -/
structure AddressRecord where
  gml_identifier : Option String
  idIIP : Option IdIIP
  cyklZycia : Option CyklZycia
  waznyOd : Option PDate
  waznyDo : Option PDate
  jednostkaAdmnistracyjna : Option (List (Option String))
  miejscowosc : Option String
  czescMiejscowosci : Option String
  ulica : Option String
  numerPorzadkowy : Option String
  kodPocztowy : Option String
  status : Option String
  pozycja : Option Pozycja
  komponent : Option (List (Option XlinkRef))
  obiektEMUiA : Option XlinkRef
deriving DecidableEq

/-- An `AddressRecord` after `remove_unneeded_ids` dropped the columns
`gml:identifier`, `prg-ad:komponent`, `prg-ad:obiektEMUiA`. -/
structure TrimmedRecord where
  idIIP : Option IdIIP
  cyklZycia : Option CyklZycia
  waznyOd : Option PDate
  waznyDo : Option PDate
  jednostkaAdmnistracyjna : Option (List (Option String))
  miejscowosc : Option String
  czescMiejscowosci : Option String
  ulica : Option String
  numerPorzadkowy : Option String
  kodPocztowy : Option String
  status : Option String
  pozycja : Option Pozycja
deriving DecidableEq

/-- Nested-struct access `prg-ad:cyklZycia.bt:BT_CyklZyciaInfo.bt:koniecWersjiObiektu`
(null propagates through the wrapper levels, as in Spark). -/
def cyklKoniec (c : Option CyklZycia) : Option Timestamp :=
  (c.bind CyklZycia.bt_BT_CyklZyciaInfo).bind CyklZyciaInfo.koniecWersjiObiektu

/-- Nested-struct access for `bt:poczatekWersjiObiektu`. -/
def cyklPoczatek (c : Option CyklZycia) : Option Timestamp :=
  (c.bind CyklZycia.bt_BT_CyklZyciaInfo).bind CyklZyciaInfo.poczatekWersjiObiektu

/-- Nested-struct access for `bt:lokalnyId`. -/
def iipLokalnyId (i : Option IdIIP) : Option String :=
  (i.bind IdIIP.bt_BT_Identyfikator).bind BT_Identyfikator.lokalnyId

/-- Nested-struct access for `bt:przestrzenNazw`. -/
def iipPrzestrzenNazw (i : Option IdIIP) : Option String :=
  (i.bind IdIIP.bt_BT_Identyfikator).bind BT_Identyfikator.przestrzenNazw

/-- Nested-struct access for `bt:wersjaId`. -/
def iipWersjaId (i : Option IdIIP) : Option Timestamp :=
  (i.bind IdIIP.bt_BT_Identyfikator).bind BT_Identyfikator.wersjaId

/-- Lifecycle end of a trimmed record. -/
def TrimmedRecord.koniec (r : TrimmedRecord) : Option Timestamp :=
  cyklKoniec r.cyklZycia

/-- Lifecycle end of a full record. -/
def AddressRecord.koniec (r : AddressRecord) : Option Timestamp :=
  cyklKoniec r.cyklZycia

/-- `remove_closed_objects`: two chained `where` clauses keeping rows whose
`koniecWersjiObiektu` and `waznyDo` are SQL NULL. -/
def remove_closed_objects (df : List TrimmedRecord) : List TrimmedRecord :=
  (df.filter (fun r => sqlWhereKeep (sqlIsNull r.koniec))).filter
    (fun r => sqlWhereKeep (sqlIsNull r.waznyDo))

/-- `remove_planned_addresses`: `where(col("prg-ad:status") != lit("prognozowany"))`
with Spark three-valued `!=` semantics. -/
def remove_planned_addresses (df : List TrimmedRecord) : List TrimmedRecord :=
  df.filter (fun r => sqlWhereKeep (sqlNe r.status (some "prognozowany")))

/-- Column drop of `remove_unneeded_ids` applied to one row. -/
def dropUnneededIds (r : AddressRecord) : TrimmedRecord :=
  { idIIP := r.idIIP
    cyklZycia := r.cyklZycia
    waznyOd := r.waznyOd
    waznyDo := r.waznyDo
    jednostkaAdmnistracyjna := r.jednostkaAdmnistracyjna
    miejscowosc := r.miejscowosc
    czescMiejscowosci := r.czescMiejscowosci
    ulica := r.ulica
    numerPorzadkowy := r.numerPorzadkowy
    kodPocztowy := r.kodPocztowy
    status := r.status
    pozycja := r.pozycja }

/-- `remove_unneeded_ids`: drops `gml:identifier`, `prg-ad:komponent`,
`prg-ad:obiektEMUiA` from every row. -/
def remove_unneeded_ids (df : List AddressRecord) : List TrimmedRecord :=
  df.map dropUnneededIds

/-- The column names dropped by `remove_unneeded_ids`. -/
def droppedIdColumns : List String :=
  ["gml:identifier", "prg-ad:komponent", "prg-ad:obiektEMUiA"]

/-!
Geometry stage.  `parse_point_geometry` evaluates the Sedona SQL expression

  ST_Transform(ST_SetSRID(ST_FlipCoordinates(ST_GeomFromWKT(
      concat("POINT(", pozycja.Point.pos, ")"))), 2180), "EPSG:4326")

and drops the raw `prg-ad:pozycja` column.  The WKT point parser is a model
of the JTS reader used by Sedona, specialised to 2-D points: the text must
be `POINT(` + two whitespace-separated decimal numeric tokens + `)`.
Numeric tokens are modelled as an optional sign, digits, and at most one
decimal dot.  Reprojection is modelled symbolically: `ST_Transform` records
the SRID-tagged source point and the target CRS string (the numeric
transform itself lives in the geotools library).
-/

/-- A point geometry before reprojection: the two coordinate tokens as they
appear in the WKT text, plus the SRID assigned to the geometry (JTS parses
WKT with SRID 0). -/
structure GeoPoint where
  x : String
  y : String
  srid : Nat
deriving DecidableEq

/-- A reprojected geometry: the source point fed to `ST_Transform` together
with the target CRS identifier. -/
structure Geometry where
  sourcePoint : GeoPoint
  targetCRS : String
deriving DecidableEq

/-- Strip an expected character-list prefix, returning the rest. -/
def stripPrefixChars : List Char → List Char → Option (List Char)
  | [], l => some l
  | _ :: _, [] => none
  | p :: ps, c :: cs => if c = p then stripPrefixChars ps cs else none

/-- Split a character list into maximal runs separated by spaces, dropping
empty runs (whitespace tokenisation of the WKT reader; `acc` holds the
current token reversed). -/
def wsTokensAux (acc : List Char) : List Char → List (List Char)
  | [] => if acc.isEmpty then [] else [acc.reverse]
  | c :: cs =>
    if c = ' ' then
      if acc.isEmpty then wsTokensAux [] cs else acc.reverse :: wsTokensAux [] cs
    else
      wsTokensAux (c :: acc) cs

/-- Whitespace tokens of a character list. -/
def wsTokens (l : List Char) : List (List Char) := wsTokensAux [] l

/-- Python-style `split(sep)` on character lists: splits at every separator,
keeping empty segments, and always returns at least one segment. -/
def pySplit (sep : Char) : List Char → List (List Char)
  | [] => [[]]
  | c :: cs =>
    match pySplit sep cs with
    | [] => [[]]
    | seg :: rest =>
      if c = sep then [] :: seg :: rest else (c :: seg) :: rest

/-- Decimal numeric token: optional sign, then digits with at most one
decimal dot and at least one digit. -/
def isNumToken (l : List Char) : Bool :=
  match l with
  | [] => false
  | c :: cs =>
    let body := if c = '-' || c = '+' then cs else c :: cs
    match pySplit '.' body with
    | [a] => !a.isEmpty && a.all Char.isDigit
    | [a, b] => (!a.isEmpty || !b.isEmpty) && a.all Char.isDigit && b.all Char.isDigit
    | _ => false

/-- Parse a WKT point string: `POINT(` + two numeric tokens + `)`.  Returns
the two coordinate tokens in textual order, or `none` when malformed. -/
def parsePointWKT (s : String) : Option (String × String) :=
  match stripPrefixChars "POINT(".data s.data with
  | none => none
  | some rest =>
    match rest.reverse with
    | [] => none
    | lastc :: innerRev =>
      if lastc = ')' then
        match wsTokens innerRev.reverse with
        | [a, b] =>
          if isNumToken a && isNumToken b then
            some (String.mk a, String.mk b)
          else none
        | _ => none
      else none

/-- Spark `concat`: NULL-propagating string concatenation building the WKT
text `POINT(` + pos + `)`. -/
def concatPointWKT (pos : Option String) : Option String :=
  pos.map (fun s => "POINT(" ++ s ++ ")")

/-- Sedona `ST_GeomFromWKT`: NULL input yields NULL output; invalid WKT
raises a parse exception (failing the Spark job); valid point text yields a
point with SRID 0. -/
def ST_GeomFromWKT (wkt : Option String) : Except String (Option GeoPoint) :=
  match wkt with
  | none => Except.ok none
  | some s =>
    match parsePointWKT s with
    | some (a, b) => Except.ok (some { x := a, y := b, srid := 0 })
    | none => Except.error ("ParseException: " ++ s)

/-- Sedona `ST_FlipCoordinates`: swaps the two coordinates (NULL passes
through). -/
def ST_FlipCoordinates (g : Option GeoPoint) : Option GeoPoint :=
  g.map (fun p => { x := p.y, y := p.x, srid := p.srid })

/-- Sedona `ST_SetSRID` (NULL passes through). -/
def ST_SetSRID (g : Option GeoPoint) (srid : Nat) : Option GeoPoint :=
  g.map (fun p => { p with srid := srid })

/-- Sedona `ST_Transform` to a target CRS, modelled symbolically (NULL
passes through). -/
def ST_Transform (g : Option GeoPoint) (target : String) : Option Geometry :=
  g.map (fun p => { sourcePoint := p, targetCRS := target })

/-- Nested access `prg-ad:pozycja.gml:Point.gml:pos` (null propagates). -/
def posOf (p : Option Pozycja) : Option String :=
  (p.bind Pozycja.gml_Point).bind GmlPoint.gml_pos

/-- Raw position text of a record. -/
def AddressRecord.posText (r : AddressRecord) : Option String := posOf r.pozycja

/-- Raw position text of a trimmed record. -/
def TrimmedRecord.posText (r : TrimmedRecord) : Option String := posOf r.pozycja

/-- The value of the `geometry` column for one row: the Sedona expression of
`parse_point_geometry` evaluated on the row's `prg-ad:pozycja` field. -/
def geometry_expr (pozycja : Option Pozycja) : Except String (Option Geometry) :=
  match ST_GeomFromWKT (concatPointWKT (posOf pozycja)) with
  | Except.error e => Except.error e
  | Except.ok g =>
    Except.ok (ST_Transform (ST_SetSRID (ST_FlipCoordinates g) 2180) "EPSG:4326")

/-- A full record after the geometry stage: `prg-ad:pozycja` replaced by the
derived `geometry` column. -/
structure GeoRecord where
  gml_identifier : Option String
  idIIP : Option IdIIP
  cyklZycia : Option CyklZycia
  waznyOd : Option PDate
  waznyDo : Option PDate
  jednostkaAdmnistracyjna : Option (List (Option String))
  miejscowosc : Option String
  czescMiejscowosci : Option String
  ulica : Option String
  numerPorzadkowy : Option String
  kodPocztowy : Option String
  status : Option String
  geometry : Option Geometry
  komponent : Option (List (Option XlinkRef))
  obiektEMUiA : Option XlinkRef
deriving DecidableEq

/-- A trimmed record after the geometry stage. -/
structure GeoTrimmedRecord where
  idIIP : Option IdIIP
  cyklZycia : Option CyklZycia
  waznyOd : Option PDate
  waznyDo : Option PDate
  jednostkaAdmnistracyjna : Option (List (Option String))
  miejscowosc : Option String
  czescMiejscowosci : Option String
  ulica : Option String
  numerPorzadkowy : Option String
  kodPocztowy : Option String
  status : Option String
  geometry : Option Geometry
deriving DecidableEq

/-- Attach a computed geometry to a full record (the `withColumn` + `drop`
of `parse_point_geometry` on one row). -/
def GeoRecord.ofRecord (r : AddressRecord) (g : Option Geometry) : GeoRecord :=
  { gml_identifier := r.gml_identifier
    idIIP := r.idIIP
    cyklZycia := r.cyklZycia
    waznyOd := r.waznyOd
    waznyDo := r.waznyDo
    jednostkaAdmnistracyjna := r.jednostkaAdmnistracyjna
    miejscowosc := r.miejscowosc
    czescMiejscowosci := r.czescMiejscowosci
    ulica := r.ulica
    numerPorzadkowy := r.numerPorzadkowy
    kodPocztowy := r.kodPocztowy
    status := r.status
    geometry := g
    komponent := r.komponent
    obiektEMUiA := r.obiektEMUiA }

/-- Attach a computed geometry to a trimmed record. -/
def GeoTrimmedRecord.ofTrimmed (r : TrimmedRecord) (g : Option Geometry) :
    GeoTrimmedRecord :=
  { idIIP := r.idIIP
    cyklZycia := r.cyklZycia
    waznyOd := r.waznyOd
    waznyDo := r.waznyDo
    jednostkaAdmnistracyjna := r.jednostkaAdmnistracyjna
    miejscowosc := r.miejscowosc
    czescMiejscowosci := r.czescMiejscowosci
    ulica := r.ulica
    numerPorzadkowy := r.numerPorzadkowy
    kodPocztowy := r.kodPocztowy
    status := r.status
    geometry := g }

/-- `parse_point_geometry` on a dataframe of full records: a WKT parse
exception in any row fails the whole job. -/
def parse_point_geometry_full :
    List AddressRecord → Except String (List GeoRecord)
  | [] => Except.ok []
  | r :: rest =>
    match geometry_expr r.pozycja with
    | Except.error e => Except.error e
    | Except.ok g =>
      match parse_point_geometry_full rest with
      | Except.error e => Except.error e
      | Except.ok t => Except.ok (GeoRecord.ofRecord r g :: t)

/-- `parse_point_geometry` on a dataframe of trimmed records (the overture
branch applies it after `remove_unneeded_ids`). -/
def parse_point_geometry :
    List TrimmedRecord → Except String (List GeoTrimmedRecord)
  | [] => Except.ok []
  | r :: rest =>
    match geometry_expr r.pozycja with
    | Except.error e => Except.error e
    | Except.ok g =>
      match parse_point_geometry rest with
      | Except.error e => Except.error e
      | Except.ok t => Except.ok (GeoTrimmedRecord.ofTrimmed r g :: t)

/-!
Projection stage: the two mode-specific `select` calls.
-/

/-- Output row of `select_cols_for_overture` (Mode A). -/
structure OvertureRow where
  id_namespace : Option String
  unique_id : Option String
  object_timestamp : Option Timestamp
  administrative_units : Option (List (Option String))
  place : Option String
  place_part : Option String
  street : Option String
  housenumber : Option String
  postal_code : Option String
  geometry : Option Geometry
deriving DecidableEq

/-- Spark array `getItem` / `col[i]`: NULL for a NULL array, a NULL element,
or an out-of-bounds index. -/
def getItem (arr : Option (List (Option String))) (i : Nat) : Option String :=
  Option.join (arr.bind (fun l => l.get? i))

/-- Output row of `select_cols_for_osmpoland` (Mode B). -/
structure OsmpolandRow where
  przestrzenNazw : Option String
  lokalnyId : Option String
  wersjaId : Option Timestamp
  jednostkaAdmnistracyjna_0 : Option String
  jednostkaAdmnistracyjna_1 : Option String
  jednostkaAdmnistracyjna_2 : Option String
  jednostkaAdmnistracyjna_3 : Option String
  miejscowosc : Option String
  czescMiejscowosci : Option String
  ulica : Option String
  numerPorzadkowy : Option String
  kodPocztowy : Option String
  status : Option String
  geometry : Option Geometry
  gml_identifier : Option String
  komponent : Option (List (Option XlinkRef))
  obiektEMUiA : Option XlinkRef
  poczatekWersjiObiektu : Option Timestamp
  koniecWersjiObiektu : Option Timestamp
  waznyOd : Option PDate
  waznyDo : Option PDate
deriving DecidableEq

/-- The `select_cols_for_overture` projection applied to one row. -/
def select_row_overture (r : GeoTrimmedRecord) : OvertureRow :=
  { id_namespace := iipPrzestrzenNazw r.idIIP
    unique_id := iipLokalnyId r.idIIP
    object_timestamp := iipWersjaId r.idIIP
    administrative_units := r.jednostkaAdmnistracyjna
    place := r.miejscowosc
    place_part := r.czescMiejscowosci
    street := r.ulica
    housenumber := r.numerPorzadkowy
    postal_code := r.kodPocztowy
    geometry := r.geometry }

/-- `select_cols_for_overture` on a dataframe. -/
def select_cols_for_overture (df : List GeoTrimmedRecord) : List OvertureRow :=
  df.map select_row_overture

/-- The `select_cols_for_osmpoland` projection applied to one row; the
administrative-unit array is exploded with `col[i]` for `i` in `0..3`. -/
def select_row_osmpoland (r : GeoRecord) : OsmpolandRow :=
  { przestrzenNazw := iipPrzestrzenNazw r.idIIP
    lokalnyId := iipLokalnyId r.idIIP
    wersjaId := iipWersjaId r.idIIP
    jednostkaAdmnistracyjna_0 := getItem r.jednostkaAdmnistracyjna 0
    jednostkaAdmnistracyjna_1 := getItem r.jednostkaAdmnistracyjna 1
    jednostkaAdmnistracyjna_2 := getItem r.jednostkaAdmnistracyjna 2
    jednostkaAdmnistracyjna_3 := getItem r.jednostkaAdmnistracyjna 3
    miejscowosc := r.miejscowosc
    czescMiejscowosci := r.czescMiejscowosci
    ulica := r.ulica
    numerPorzadkowy := r.numerPorzadkowy
    kodPocztowy := r.kodPocztowy
    status := r.status
    geometry := r.geometry
    gml_identifier := r.gml_identifier
    komponent := r.komponent
    obiektEMUiA := r.obiektEMUiA
    poczatekWersjiObiektu := cyklPoczatek r.cyklZycia
    koniecWersjiObiektu := cyklKoniec r.cyklZycia
    waznyOd := r.waznyOd
    waznyDo := r.waznyDo }

/-- `select_cols_for_osmpoland` on a dataframe. -/
def select_cols_for_osmpoland (df : List GeoRecord) : List OsmpolandRow :=
  df.map select_row_osmpoland

/-- The output column names of Mode A, in the order of the `select` call in
`select_cols_for_overture`. -/
def overtureColumns : List String :=
  ["id_namespace", "unique_id", "object_timestamp", "administrative_units",
   "place", "place_part", "street", "housenumber", "postal_code", "geometry"]

/-- The output column names of Mode B, in the order of the `select` call in
`select_cols_for_osmpoland`. -/
def osmpolandColumns : List String :=
  ["przestrzenNazw", "lokalnyId", "wersjaId",
   "jednostkaAdmnistracyjna_0", "jednostkaAdmnistracyjna_1",
   "jednostkaAdmnistracyjna_2", "jednostkaAdmnistracyjna_3",
   "miejscowosc", "czescMiejscowosci", "ulica", "numerPorzadkowy",
   "kodPocztowy", "status", "geometry", "gml:identifier",
   "prg-ad:komponent", "prg-ad:obiektEMUiA",
   "poczatekWersjiObiektu", "koniecWersjiObiektu",
   "prg-ad:waznyOd", "prg-ad:waznyDo"]

/-!
Orchestration (`__main__`): mode validation, read, mode dispatch, empty
check, write.  The XML source is modelled as a list of record elements each
of which either parses against the schema or fails with a message; the
FAILFAST read of `read_xml` is all-or-nothing over that list.  Python
`str.strip()` / `str.lower()` are modelled on character lists (ASCII case
range, which covers the two mode tokens).
-/

/-- Whitespace test of Python `str.strip()`. -/
def isPyWS (c : Char) : Bool :=
  c = ' ' || c = '\t' || c = '\n' || c = '\r' || c = '\x0b' || c = '\x0c'

/-- Python `str.strip()`. -/
def pyStrip (s : String) : String :=
  String.mk (((s.data.dropWhile isPyWS).reverse.dropWhile isPyWS).reverse)

/-- Python `str.lower()` (ASCII range). -/
def pyLower (s : String) : String :=
  String.mk (s.data.map Char.toLower)

/-- `MODE_OVERTURE`. -/
def MODE_OVERTURE : String := "overture"

/-- `MODE_OSMPOLAND`. -/
def MODE_OSMPOLAND : String := "osmpoland"

/-- The set `MODES` of legal mode tokens. -/
def MODES : List String := [ MODE_OVERTURE, MODE_OSMPOLAND]

/-- Rendering of the `MODES` set interpolated into the error messages
(Python renders the set literal; quoting and element order are elided). -/
def MODES_REPR : String := "\x7boverture, osmpoland\x7d"

/-- `read_xml` with `mode=FAILFAST`: the whole batch fails on the first
record element that does not parse against the schema; otherwise one output
row per record element. -/
def read_xml : List (Except String AddressRecord) → Except String (List AddressRecord)
  | [] => Except.ok []
  | Except.error e :: _ => Except.error e
  | Except.ok r :: rest =>
    match read_xml rest with
    | Except.error e => Except.error e
    | Except.ok t => Except.ok (r :: t)

/-- The mode-projected dataframe handed to the writer. -/
inductive ProjectedData
  | overture (rows : List OvertureRow)
  | osmpoland (rows : List OsmpolandRow)
deriving DecidableEq

/-- `df.count()` on the projected dataframe. -/
def ProjectedData.count : ProjectedData → Nat
  | ProjectedData.overture rows => rows.length
  | ProjectedData.osmpoland rows => rows.length

/-- One axis entry of the CRS84 projjson document written as geoparquet
metadata. -/
structure CrsAxis where
  abbreviation : String
  direction : String
  axisName : String
  unit : String
deriving DecidableEq

/-- The axis list of the CRS84 projjson literal in `process_gml.py`:
longitude first, then latitude. -/
def crs84Axes : List CrsAxis :=
  [{ abbreviation := "Lon", direction := "east",
     axisName := "Geodetic longitude", unit := "degree" },
   { abbreviation := "Lat", direction := "north",
     axisName := "Geodetic latitude", unit := "degree" }]

/-- The write call performed at the end of a successful run. -/
structure WriteAction where
  rows : ProjectedData
  numFiles : Nat
  outFormat : String
  geoparquetVersion : String
  crsAxes : List CrsAxis
  compression : String
  saveMode : String
deriving DecidableEq

/-- The row-count check followed by the geoparquet write: zero rows raise
`ValueError("No data to write.")` before any write happens; otherwise the
projected data is written coalesced to one zstd-compressed geoparquet 1.0.0
file with the CRS84 metadata, in overwrite mode. -/
def finishWrite (out : ProjectedData) : Except String WriteAction :=
  if out.count = 0 then
    Except.error "No data to write."
  else
    Except.ok
      { rows := out
        numFiles := 1
        outFormat := "geoparquet"
        geoparquetVersion := "1.0.0"
        crsAxes := crs84Axes
        compression := "zstd"
        saveMode := "overwrite" }

/-- The `__main__` block of `process_gml.py`: `argv` is the Python argument
vector (program name first), `xmlData` the XML record elements found under
the input glob.  Returns the write action performed, or the message of the
exception that terminated the run. -/
def pyMain (argv : List String) (xmlData : List (Except String AddressRecord)) :
    Except String WriteAction :=
  if argv.length ≤ 1 then
    Except.error ("Need to provide execution parameter: " ++ MODES_REPR)
  else
    let mode := pyLower (pyStrip ((argv.get? 1).getD ""))
    if mode ∈ MODES then
      match read_xml xmlData with
      | Except.error e => Except.error e
      | Except.ok records =>
        let projected : Except String ProjectedData :=
          if mode = MODE_OVERTURE then
            let t := remove_unneeded_ids records
            let t := remove_closed_objects t
            let t := remove_planned_addresses t
            match parse_point_geometry t with
            | Except.error e => Except.error e
            | Except.ok g =>
              Except.ok (ProjectedData.overture (select_cols_for_overture g))
          else if mode = MODE_OSMPOLAND then
            match parse_point_geometry_full records with
            | Except.error e => Except.error e
            | Except.ok g =>
              Except.ok (ProjectedData.osmpoland (select_cols_for_osmpoland g))
          else
            Except.error ("Unknown mode: " ++ mode ++ ", should be one of: " ++ MODES_REPR)
        match projected with
        | Except.error e => Except.error e
        | Except.ok out => finishWrite out
    else
      Except.error ("mode: " ++ mode ++ " not one of: " ++ MODES_REPR)

/-- Row count of a run result (`none` when the run failed). -/
def outCount : Except String WriteAction → Option Nat
  | Except.ok w => some w.rows.count
  | Except.error _ => none

/-- The `unique_id` column of an overture-mode run result. -/
def overtureIds : Except String WriteAction → List (Option String)
  | Except.ok { rows := ProjectedData.overture rs, .. } => rs.map OvertureRow.unique_id
  | _ => []

/-- The `koniecWersjiObiektu` column of an osmpoland-mode run result. -/
def osmKoniecs : Except String WriteAction → List (Option Timestamp)
  | Except.ok { rows := ProjectedData.osmpoland rs, .. } =>
      rs.map OsmpolandRow.koniecWersjiObiektu
  | _ => []

/-!
Unpack step (`download_and_unpack.py`): each archive entry is extracted and
then renamed to `zf.filename.split("_")[-1:][0]`, i.e. the last segment of
the Python underscore-split of its full entry path.
-/

/-- Last element of a list of segments (the Python `[-1:][0]` on the result
of `split`, which is always non-empty). -/
def lastSeg : List (List Char) → List Char
  | [] => []
  | [x] => x
  | _ :: x :: xs => lastSeg (x :: xs)

/-- The renamed file name of one archive entry: `filename.split("_")[-1:][0]`. -/
def new_name (filename : String) : String :=
  String.mk (lastSeg (pySplit '_' filename.data))

/-- The substring of a character list after its last separator occurrence
(the whole list when the separator does not occur) — the wording of the
spec for the rename step. -/
def afterLastSep (sep : Char) : List Char → List Char
  | [] => []
  | c :: cs =>
    if sep ∈ cs then afterLastSep sep cs
    else if c = sep then cs
    else c :: cs

/-- A file name is flat when it has no directory separator. -/
def isFlatName (s : String) : Bool := !(decide ('/' ∈ s.data))

/-!
Concrete sample records used as test inputs and witnesses.
-/

/-- IIP identifier of the sample open record. -/
def iipOpen : IdIIP :=
  { bt_BT_Identyfikator :=
      some ⟨some "open1", some "PL.PZGIK.200", some 100⟩ }

/-- Lifecycle of the sample open record: non-null start, null end. -/
def cyklOpen : CyklZycia :=
  { bt_BT_CyklZyciaInfo := some ⟨some 50, none⟩ }

/-- IIP identifier of the sample closed record. -/
def iipClosed : IdIIP :=
  { bt_BT_Identyfikator :=
      some ⟨some "closed1", some "PL.PZGIK.200", some 200⟩ }

/-- Lifecycle of the sample closed record: non-null end timestamp. -/
def cyklClosed : CyklZycia :=
  { bt_BT_CyklZyciaInfo := some ⟨some 60, some 999⟩ }

/-- A schema-shaped record of an existing, open address point. -/
def recOpen : AddressRecord :=
  { gml_identifier := some "PL.PZGIK.200.open"
    idIIP := some iipOpen
    cyklZycia := some cyklOpen
    waznyOd := some 10
    waznyDo := none
    jednostkaAdmnistracyjna := some [ some "Polska", some "dolnoslaskie"]
    miejscowosc := some "Wroclaw"
    czescMiejscowosci := none
    ulica := some "Rynek"
    numerPorzadkowy := some "1"
    kodPocztowy := some "50-001"
    status := some "istniejacy"
    pozycja := some { gml_Point := some { gml_pos := some "500000 300000" } }
    komponent := some [ some { xlink_href := some "ref1" }]
    obiektEMUiA := none }

/-- Like `recOpen` but with a non-null lifecycle end (a closed version). -/
def recClosed : AddressRecord :=
  { recOpen with
    gml_identifier := some "PL.PZGIK.200.closed"
    idIIP := some iipClosed
    cyklZycia := some cyklClosed }

/-- Like `recOpen` but with a NULL `prg-ad:pozycja` (no position text). -/
def recNoPos : AddressRecord := { recOpen with pozycja := none }

/-- Like `recOpen` but with a malformed (non-numeric) position text. -/
def recBadPos : AddressRecord :=
  { recOpen with pozycja := some { gml_Point := some { gml_pos := some "abc xyz" } } }

/-- The trimmed open record, as it appears after `remove_unneeded_ids`. -/
def recOpenT : TrimmedRecord := dropUnneededIds recOpen

/-- A trimmed record with a NULL `prg-ad:status`. -/
def recNullStatusT : TrimmedRecord := { recOpenT with status := none }

/-- A two-record XML batch: one closed version, then one open record. -/
def sampleXml : List (Except String AddressRecord) :=
  [ Except.ok recClosed, Except.ok recOpen]

deriving instance DecidableEq for Except

/-!
Helper lemmas.
-/

/-- The geometry stage preserves the row count when it succeeds. -/
theorem parse_point_geometry_full_length (records : List AddressRecord)
    (g : List GeoRecord) (h : parse_point_geometry_full records = Except.ok g) :
    g.length = records.length := by
  induction records generalizing g with
  | nil =>
    simp only [parse_point_geometry_full] at h
    cases h
    rfl
  | cons r rest ih =>
    simp only [parse_point_geometry_full] at h
    cases hg : geometry_expr r.pozycja with
    | error e => rw [hg] at h; cases h
    | ok gg =>
      rw [hg] at h
      cases ht : parse_point_geometry_full rest with
      | error e => rw [ht] at h; cases h
      | ok t =>
        rw [ht] at h
        cases h
        simp [ih t ht]

/-- Membership in a retained row of `remove_closed_objects` forces both
null checks to have passed. -/
theorem mem_remove_closed (df : List TrimmedRecord) (r : TrimmedRecord)
    (h : r ∈ remove_closed_objects df) :
    r ∈ df ∧ r.koniec = none ∧ r.waznyDo = none := by
  unfold remove_closed_objects at h
  obtain ⟨h1, h2⟩ := List.mem_filter.mp h
  obtain ⟨h3, h4⟩ := List.mem_filter.mp h1
  refine ⟨h3, ?_, ?_⟩
  · cases hk : r.koniec with
    | none => rfl
    | some t => rw [hk] at h4; simp [sqlIsNull, sqlWhereKeep] at h4
  · cases hw : r.waznyDo with
    | none => rfl
    | some t => rw [hw] at h2; simp [sqlIsNull, sqlWhereKeep] at h2

/-- Membership in a retained row of `remove_planned_addresses` forces a
non-null status different from `prognozowany`. -/
theorem mem_remove_planned (df : List TrimmedRecord) (r : TrimmedRecord)
    (h : r ∈ remove_planned_addresses df) :
    r ∈ df ∧ ∃ s, r.status = some s ∧ s ≠ "prognozowany" := by
  unfold remove_planned_addresses at h
  obtain ⟨h1, h2⟩ := List.mem_filter.mp h
  refine ⟨h1, ?_⟩
  cases hs : r.status with
  | none => rw [hs] at h2; simp [sqlNe, sqlWhereKeep] at h2
  | some s =>
    rw [hs] at h2
    refine ⟨s, rfl, ?_⟩
    intro hcontra
    rw [hcontra] at h2
    simp [sqlNe, sqlWhereKeep] at h2

/-- A successful `finishWrite` implies a positive row count. -/
theorem finishWrite_pos (out : ProjectedData) (w : WriteAction)
    (hf : finishWrite out = Except.ok w) : 0 < w.rows.count := by
  unfold finishWrite at hf
  split at hf
  · cases hf
  · rename_i hne
    cases hf
    exact Nat.pos_of_ne_zero hne

/-- Evaluation of a run in overture mode, given the outcome of the read. -/
theorem pyMain_overture_run (d : List (Except String AddressRecord))
    (records : List AddressRecord) (h1 : read_xml d = Except.ok records) :
    pyMain ["process_gml.py", "overture"] d =
      match parse_point_geometry
          (remove_planned_addresses (remove_closed_objects (remove_unneeded_ids records))) with
      | Except.error e => Except.error e
      | Except.ok g => finishWrite (ProjectedData.overture (select_cols_for_overture g)) := by
  unfold pyMain
  rw [h1]
  simp
  rw [if_pos (show pyLower (pyStrip "overture") ∈ MODES by decide),
      if_pos (show pyLower (pyStrip "overture") = MODE_OVERTURE by decide)]
  cases hp : parse_point_geometry
      (remove_planned_addresses (remove_closed_objects (remove_unneeded_ids records))) with
  | error e => rfl
  | ok g => rfl

/-- Evaluation of a run in osmpoland mode, given the outcome of the read. -/
theorem pyMain_osmpoland_run (d : List (Except String AddressRecord))
    (records : List AddressRecord) (h1 : read_xml d = Except.ok records) :
    pyMain ["process_gml.py", "osmpoland"] d =
      match parse_point_geometry_full records with
      | Except.error e => Except.error e
      | Except.ok g => finishWrite (ProjectedData.osmpoland (select_cols_for_osmpoland g)) := by
  unfold pyMain
  rw [h1]
  simp
  rw [if_pos (show pyLower (pyStrip "osmpoland") ∈ MODES by decide),
      if_neg (show ¬ pyLower (pyStrip "osmpoland") = MODE_OVERTURE by decide),
      if_pos (show pyLower (pyStrip "osmpoland") = MODE_OSMPOLAND by decide)]
  cases hp : parse_point_geometry_full records with
  | error e => rfl
  | ok g => rfl

/-!
Claim theorems.
-/

/-- C1 counterexample: a trimmed record whose `prg-ad:status` is NULL is
dropped by `remove_planned_addresses`, not retained — the Spark `!=`
predicate evaluates to SQL NULL, which `where` treats as not-TRUE. -/
theorem C1_null_status_dropped_counterexample :
    recNullStatusT.status = none ∧
    remove_planned_addresses [ recNullStatusT] = [] := by
  constructor
  · rfl
  · decide

/-- C1 (amended): filtering is total and never fails; a record with NULL
`koniecWersjiObiektu` and NULL `waznyDo` is retained by
`remove_closed_objects`; but a record with NULL `prg-ad:status` is dropped
by `remove_planned_addresses`, because the SQL `!=` predicate is NULL on a
NULL operand and `where` keeps only TRUE rows.  Both filters only ever drop
rows (they return sublists of their input). -/
theorem C1_filter_null_semantics (r : TrimmedRecord) (df : List TrimmedRecord) :
    (r.koniec = none ∧ r.waznyDo = none → remove_closed_objects [ r] = [ r])
    ∧ (r.status = none → remove_planned_addresses [ r] = [])
    ∧ (∀ x ∈ remove_closed_objects df, x ∈ df)
    ∧ (∀ x ∈ remove_planned_addresses df, x ∈ df) := by
  refine ⟨?_, ?_, ?_, ?_⟩
  · rintro ⟨h1, h2⟩
    simp only [TrimmedRecord.koniec] at h1
    simp [remove_closed_objects, List.filter, TrimmedRecord.koniec, h1, h2,
      sqlIsNull, sqlWhereKeep]
  · intro h
    simp [remove_planned_addresses, List.filter, h, sqlNe, sqlWhereKeep]
  · intro x hx
    exact (mem_remove_closed df x hx).1
  · intro x hx
    exact (mem_remove_planned df x hx).1

/-- C1 witness: the concrete open record is retained by
`remove_closed_objects`, and the concrete NULL-status record is dropped by
`remove_planned_addresses`. -/
theorem C1_filter_null_semantics_witness :
    remove_closed_objects [ recOpenT] = [ recOpenT] ∧
    remove_planned_addresses [ recNullStatusT] = [] :=
  ⟨(C1_filter_null_semantics recOpenT []).1 ⟨rfl, rfl⟩,
   (C1_filter_null_semantics recNullStatusT []).2.1 rfl⟩

/-- C2: in overture mode both filters are applied, so every retained row
has NULL lifecycle end, NULL validity end and a (non-null) status different
from `prognozowany`, and the cross-reference columns are absent from the
Mode A output schema; in osmpoland mode neither filter runs, so the
projected row count equals the input record count; on a concrete batch with
one closed and one open record, overture mode outputs only the open record
while osmpoland mode outputs both, including the one with non-null
`koniecWersjiObiektu`. -/
theorem C2_mode_dispatch :
    (∀ df : List TrimmedRecord,
      ∀ r ∈ remove_planned_addresses (remove_closed_objects df),
        r.koniec = none ∧ r.waznyDo = none ∧
          ∃ s, r.status = some s ∧ s ≠ "prognozowany")
    ∧ ("gml:identifier" ∉ overtureColumns ∧
       "prg-ad:komponent" ∉ overtureColumns ∧
       "prg-ad:obiektEMUiA" ∉ overtureColumns)
    ∧ (∀ records g, parse_point_geometry_full records = Except.ok g →
        (select_cols_for_osmpoland g).length = records.length)
    ∧ outCount (pyMain ["process_gml.py", "overture"] sampleXml) = some 1
    ∧ overtureIds (pyMain ["process_gml.py", "overture"] sampleXml) = [ some "open1"]
    ∧ outCount (pyMain ["process_gml.py", "osmpoland"] sampleXml) = some 2
    ∧ osmKoniecs (pyMain ["process_gml.py", "osmpoland"] sampleXml) = [ some 999, none] := by
  refine ⟨?_, by decide, ?_, by decide, by decide, by decide, by decide⟩
  · intro df r hr
    obtain ⟨h1, hs⟩ := mem_remove_planned _ r hr
    obtain ⟨_, hk, hw⟩ := mem_remove_closed df r h1
    exact ⟨hk, hw, hs⟩
  · intro records g h
    simpa [select_cols_for_osmpoland] using
      parse_point_geometry_full_length records g h

/-- C2 witness: the concrete open trimmed record survives both filters and
indeed has NULL lifecycle end, NULL validity end, and non-planned status. -/
theorem C2_mode_dispatch_witness :
    recOpenT.koniec = none ∧ recOpenT.waznyDo = none ∧
      ∃ s, recOpenT.status = some s ∧ s ≠ "prognozowany" :=
  C2_mode_dispatch.1 [ recOpenT] recOpenT (by decide)

/-- The geometry-stage result for the concrete record without a position. -/
def geoNoPos : GeoRecord := GeoRecord.ofRecord recNoPos none

/-- C3 counterexample: a record whose `gml:pos` is NULL passes the Geometry
Stage without any error and comes out with a NULL `geometry` value — the
NULL propagates through `concat` and the Sedona functions — so the stage
does silently produce a record with a null geometry. -/
theorem C3_null_position_counterexample :
    recNoPos.posText = none
    ∧ parse_point_geometry_full [ recNoPos] = Except.ok [ geoNoPos]
    ∧ geoNoPos.geometry = none := by
  refine ⟨rfl, by decide, rfl⟩

/-- C3 (amended): a malformed non-null position text raises a WKT parse
exception that fails the whole batch, but a missing (NULL) position text is
not an error: NULL propagates through `concat`, `ST_GeomFromWKT`,
`ST_FlipCoordinates`, `ST_SetSRID` and `ST_Transform`, silently leaving a
NULL `geometry` value on the record. -/
theorem C3_geometry_failure_semantics (p : Option Pozycja) (r : AddressRecord)
    (df : List AddressRecord) (s : String) :
    (posOf p = none → geometry_expr p = Except.ok none)
    ∧ (r.posText = some s → parsePointWKT ("POINT(" ++ s ++ ")") = none →
        geometry_expr r.pozycja =
          Except.error ("ParseException: " ++ ("POINT(" ++ s ++ ")")))
    ∧ (r ∈ df → r.posText = some s → parsePointWKT ("POINT(" ++ s ++ ")") = none →
        ∃ e, parse_point_geometry_full df = Except.error e) := by
  have hmal : r.posText = some s → parsePointWKT ("POINT(" ++ s ++ ")") = none →
      geometry_expr r.pozycja =
        Except.error ("ParseException: " ++ ("POINT(" ++ s ++ ")")) := by
    intro h1 h2
    simp only [AddressRecord.posText] at h1
    simp [geometry_expr, h1, concatPointWKT, ST_GeomFromWKT, h2]
  refine ⟨?_, hmal, ?_⟩
  · intro h
    simp [geometry_expr, h, concatPointWKT, ST_GeomFromWKT, ST_FlipCoordinates,
      ST_SetSRID, ST_Transform]
  · intro hmem h1 h2
    induction df with
    | nil => cases hmem
    | cons a rest ih =>
      rcases List.mem_cons.mp hmem with heq | htail
      · subst heq
        refine ⟨"ParseException: " ++ ("POINT(" ++ s ++ ")"), ?_⟩
        simp [parse_point_geometry_full, hmal h1 h2]
      · obtain ⟨e, he⟩ := ih htail
        simp only [parse_point_geometry_full]
        cases hg : geometry_expr a.pozycja with
        | error e2 => exact ⟨e2, rfl⟩
        | ok gg => exact ⟨e, by rw [he]⟩

/-- C3 witness: the concrete malformed-position record fails the whole
batch of the Geometry Stage. -/
theorem C3_geometry_failure_semantics_witness :
    ∃ e, parse_point_geometry_full [ recBadPos] = Except.error e :=
  (C3_geometry_failure_semantics none recBadPos [ recBadPos] "abc xyz").2.2
    (by decide) rfl (by decide)

/-- C4: for a record whose position text parses as two numeric coordinate
tokens, the Geometry Stage builds the point from `POINT(` + text + `)`,
flips the token pair, assigns SRID 2180 to the flipped point, and
reprojects the result to `EPSG:4326`; the stage replaces `prg-ad:pozycja`
by the derived `geometry` column (the output row type has no position
field), and the CRS metadata written with the output declares
longitude-then-latitude axis order. -/
theorem C4_geometry_flip_reproject (r : AddressRecord) (s a b : String) :
    (r.posText = some s → parsePointWKT ("POINT(" ++ s ++ ")") = some (a, b) →
      geometry_expr r.pozycja = Except.ok (some
        { sourcePoint := { x := b, y := a, srid := 2180 }, targetCRS := "EPSG:4326" })
      ∧ parse_point_geometry_full [ r] = Except.ok
          [ GeoRecord.ofRecord r (some
            { sourcePoint := { x := b, y := a, srid := 2180 }, targetCRS := "EPSG:4326" })])
    ∧ crs84Axes.map CrsAxis.axisName = ["Geodetic longitude", "Geodetic latitude"] := by
  refine ⟨?_, by decide⟩
  intro h1 h2
  simp only [AddressRecord.posText] at h1
  have hex : geometry_expr r.pozycja = Except.ok (some
      { sourcePoint := { x := b, y := a, srid := 2180 }, targetCRS := "EPSG:4326" }) := by
    simp [geometry_expr, h1, concatPointWKT, ST_GeomFromWKT, h2,
      ST_FlipCoordinates, ST_SetSRID, ST_Transform]
  exact ⟨hex, by simp [parse_point_geometry_full, hex]⟩

/-- C4 witness: the concrete open record with position text
`500000 300000` yields the reprojected point whose pre-transform
coordinates are flipped to `(300000, 500000)` with SRID 2180 and target
CRS `EPSG:4326`. -/
theorem C4_geometry_flip_reproject_witness :
    geometry_expr recOpen.pozycja = Except.ok (some
      { sourcePoint := { x := "300000", y := "500000", srid := 2180 },
        targetCRS := "EPSG:4326" })
    ∧ parse_point_geometry_full [ recOpen] = Except.ok
        [ GeoRecord.ofRecord recOpen (some
          { sourcePoint := { x := "300000", y := "500000", srid := 2180 },
            targetCRS := "EPSG:4326" })] :=
  (C4_geometry_flip_reproject recOpen "500000 300000" "500000" "300000").1 rfl rfl

/-- C5: the mode token is taken from the second argument-vector entry,
stripped and lowercased; a missing mode argument or a token outside the
two-element legal set terminates the run with a message carrying the legal
set, and this happens for every XML input alike (the error does not depend
on the data, which is therefore never read); a trimmed, upper-case spelling
of a legal mode is accepted and the run proceeds into the pipeline. -/
theorem C5_mode_validation (argv : List String) (a : String)
    (d : List (Except String AddressRecord)) :
    (argv.length ≤ 1 →
      pyMain argv d = Except.error ("Need to provide execution parameter: " ++ MODES_REPR))
    ∧ (argv.get? 1 = some a → pyLower (pyStrip a) ∉ MODES →
        pyMain argv d =
          Except.error ("mode: " ++ pyLower (pyStrip a) ++ " not one of: " ++ MODES_REPR))
    ∧ MODES = ["overture", "osmpoland"]
    ∧ pyMain ["process_gml.py", "  OVERTURE  "] d = pyMain ["process_gml.py", "overture"] d
    ∧ pyMain ["process_gml.py", "  OVERTURE  "] [] = Except.error "No data to write." := by
  refine ⟨?_, ?_, by decide, rfl, by decide⟩
  · intro h
    simp [pyMain, h]
  · intro h1 h2
    have hlen : ¬ argv.length ≤ 1 := by
      intro hle
      have := List.get?_eq_none.mpr hle
      rw [h1] at this
      cases this
    simp only [pyMain, hlen, if_false, h1, Option.getD_some]
    rw [if_neg h2]

/-- C5 witness: the unsupported token `bogus` is rejected with the message
listing the legal set, before any data is consumed. -/
theorem C5_mode_validation_witness :
    pyMain ["process_gml.py", "bogus"] [] =
      Except.error ("mode: " ++ pyLower (pyStrip "bogus") ++ " not one of: " ++ MODES_REPR) :=
  (C5_mode_validation ["process_gml.py", "bogus"] "bogus" []).2.1 rfl (by decide)

/-- C6: a run never writes zero rows — every successful run carries a
positive row count — and when the overture filters (or an empty osmpoland
read) leave zero rows after projection, the run terminates with the
`No data to write.` error instead of performing the write; the count check
sits between the projection and the write (`finishWrite`). -/
theorem C6_empty_result (argv : List String) (d : List (Except String AddressRecord))
    (records : List AddressRecord) (w : WriteAction) :
    (pyMain argv d = Except.ok w → 0 < w.rows.count)
    ∧ (read_xml d = Except.ok records →
        remove_planned_addresses (remove_closed_objects (remove_unneeded_ids records)) = [] →
        pyMain ["process_gml.py", "overture"] d = Except.error "No data to write.")
    ∧ (read_xml d = Except.ok [] →
        pyMain ["process_gml.py", "osmpoland"] d = Except.error "No data to write.") := by
  refine ⟨?_, ?_, ?_⟩
  · intro h
    unfold pyMain at h
    simp only [] at h
    split at h
    · cases h
    · split at h
      · split at h
        · cases h
        · split at h
          · cases h
          · exact finishWrite_pos _ _ h
      · cases h
  · intro h1 h2
    rw [pyMain_overture_run d records h1, h2]
    rfl
  · intro h1
    rw [pyMain_osmpoland_run d [] h1]
    rfl

/-- An arbitrary write action (used only to instantiate a binder). -/
def someWrite : WriteAction :=
  { rows := ProjectedData.overture []
    numFiles := 1
    outFormat := "geoparquet"
    geoparquetVersion := "1.0.0"
    crsAxes := crs84Axes
    compression := "zstd"
    saveMode := "overwrite" }

/-- C6 witness: a batch whose single record is dropped by the overture
filters raises the empty-result error. -/
theorem C6_empty_result_witness :
    pyMain ["process_gml.py", "overture"] [ Except.ok recClosed] =
      Except.error "No data to write." :=
  (C6_empty_result ["process_gml.py", "overture"] [ Except.ok recClosed]
    [ recClosed] someWrite).2.1 (by decide) (by decide)

/-- C7: the FAILFAST read is all-or-nothing — any record element failing
schema validation fails the whole batch with a parse error and no record
list is produced — and on an all-valid batch it returns exactly one parsed
record per record element. -/
theorem C7_failfast_read (batch : List (Except String AddressRecord))
    (recs : List AddressRecord) :
    ((∃ e, Except.error e ∈ batch) → ∃ e2, read_xml batch = Except.error e2)
    ∧ read_xml (recs.map Except.ok) = Except.ok recs
    ∧ (recs.map (Except.ok : AddressRecord → Except String AddressRecord)).length
        = recs.length := by
  refine ⟨?_, ?_, by simp⟩
  · rintro ⟨e, he⟩
    induction batch with
    | nil => cases he
    | cons a rest ih =>
      cases a with
      | error e2 => exact ⟨e2, rfl⟩
      | ok r =>
        have htail : Except.error e ∈ rest := by
          rcases List.mem_cons.mp he with hh | ht
          · cases hh
          · exact ht
        obtain ⟨e2, he2⟩ := ih htail
        refine ⟨e2, ?_⟩
        simp [read_xml, he2]
  · induction recs with
    | nil => rfl
    | cons r rest ih => simp [read_xml, ih]

/-- C7 witness: a batch containing one invalid record element fails as a
whole. -/
theorem C7_failfast_read_witness :
    ∃ e2, read_xml [ Except.error "schema violation"] = Except.error e2 :=
  (C7_failfast_read [ Except.error "schema violation"] []).1
    ⟨"schema violation", by decide⟩

/-- C8: the Mode A output schema is exactly the ten claimed columns, with
no lifecycle, status, or cross-reference column; the Mode B output schema
is exactly the column list of its `select`; the only column name shared by
the two modes is `geometry`; and both projections are total (one output
row per input row). -/
theorem C8_projection_field_sets :
    overtureColumns =
      ["id_namespace", "unique_id", "object_timestamp", "administrative_units",
       "place", "place_part", "street", "housenumber", "postal_code", "geometry"]
    ∧ ("poczatekWersjiObiektu" ∉ overtureColumns
       ∧ "koniecWersjiObiektu" ∉ overtureColumns
       ∧ "status" ∉ overtureColumns
       ∧ "prg-ad:waznyOd" ∉ overtureColumns
       ∧ "prg-ad:waznyDo" ∉ overtureColumns
       ∧ "gml:identifier" ∉ overtureColumns
       ∧ "prg-ad:komponent" ∉ overtureColumns
       ∧ "prg-ad:obiektEMUiA" ∉ overtureColumns)
    ∧ osmpolandColumns =
      ["przestrzenNazw", "lokalnyId", "wersjaId",
       "jednostkaAdmnistracyjna_0", "jednostkaAdmnistracyjna_1",
       "jednostkaAdmnistracyjna_2", "jednostkaAdmnistracyjna_3",
       "miejscowosc", "czescMiejscowosci", "ulica", "numerPorzadkowy",
       "kodPocztowy", "status", "geometry", "gml:identifier",
       "prg-ad:komponent", "prg-ad:obiektEMUiA",
       "poczatekWersjiObiektu", "koniecWersjiObiektu",
       "prg-ad:waznyOd", "prg-ad:waznyDo"]
    ∧ overtureColumns.inter osmpolandColumns = ["geometry"]
    ∧ (∀ df, (select_cols_for_overture df).length = df.length)
    ∧ (∀ df, (select_cols_for_osmpoland df).length = df.length) := by
  refine ⟨by decide, by decide, by decide, by decide, ?_, ?_⟩
  · intro df
    simp [select_cols_for_overture]
  · intro df
    simp [select_cols_for_osmpoland]

/-- C9: in Mode B the administrative-unit array is exploded into exactly
the four positional columns `jednostkaAdmnistracyjna_0..3` via the Spark
`col[i]` element access, which yields NULL for every index at or beyond the
array length; the row also carries lifecycle start/end, validity start/end,
status, geometry, the original `gml:identifier`, and both cross-reference
fields under their original names. -/
theorem C9_osmpoland_explode (r : GeoRecord) (l : List (Option String)) :
    ((select_row_osmpoland r).jednostkaAdmnistracyjna_0 = getItem r.jednostkaAdmnistracyjna 0
     ∧ (select_row_osmpoland r).jednostkaAdmnistracyjna_1 = getItem r.jednostkaAdmnistracyjna 1
     ∧ (select_row_osmpoland r).jednostkaAdmnistracyjna_2 = getItem r.jednostkaAdmnistracyjna 2
     ∧ (select_row_osmpoland r).jednostkaAdmnistracyjna_3 = getItem r.jednostkaAdmnistracyjna 3)
    ∧ (r.jednostkaAdmnistracyjna = some l →
        ((l.length ≤ 0 → (select_row_osmpoland r).jednostkaAdmnistracyjna_0 = none)
         ∧ (l.length ≤ 1 → (select_row_osmpoland r).jednostkaAdmnistracyjna_1 = none)
         ∧ (l.length ≤ 2 → (select_row_osmpoland r).jednostkaAdmnistracyjna_2 = none)
         ∧ (l.length ≤ 3 → (select_row_osmpoland r).jednostkaAdmnistracyjna_3 = none)))
    ∧ ((select_row_osmpoland r).poczatekWersjiObiektu = cyklPoczatek r.cyklZycia
       ∧ (select_row_osmpoland r).koniecWersjiObiektu = cyklKoniec r.cyklZycia
       ∧ (select_row_osmpoland r).waznyOd = r.waznyOd
       ∧ (select_row_osmpoland r).waznyDo = r.waznyDo
       ∧ (select_row_osmpoland r).status = r.status
       ∧ (select_row_osmpoland r).geometry = r.geometry
       ∧ (select_row_osmpoland r).gml_identifier = r.gml_identifier
       ∧ (select_row_osmpoland r).komponent = r.komponent
       ∧ (select_row_osmpoland r).obiektEMUiA = r.obiektEMUiA) := by
  refine ⟨⟨rfl, rfl, rfl, rfl⟩, ?_,
    ⟨rfl, rfl, rfl, rfl, rfl, rfl, rfl, rfl, rfl⟩⟩
  intro hl
  refine ⟨?_, ?_, ?_, ?_⟩ <;>
    intro hlen <;>
    simp [select_row_osmpoland, getItem, hl, List.getElem?_eq_none, hlen]

/-- A Mode B input row whose administrative-unit array has one element. -/
def geoShortUnits : GeoRecord :=
  GeoRecord.ofRecord { recOpen with jednostkaAdmnistracyjna := some [ some "woj"] } none

/-- C9 witness: with a one-element array, positional column 1 is NULL. -/
theorem C9_osmpoland_explode_witness :
    (select_row_osmpoland geoShortUnits).jednostkaAdmnistracyjna_1 = none :=
  ((C9_osmpoland_explode geoShortUnits [ some "woj"]).2.1 rfl).2.1 (by decide)

/-!
Lemmas for the unpack rename step.
-/

/-- `pySplit` always returns at least one segment. -/
theorem pySplit_ne_nil (sep : Char) (l : List Char) :
    ∃ seg rest, pySplit sep l = seg :: rest := by
  induction l with
  | nil => exact ⟨[], [], rfl⟩
  | cons c cs ih =>
    obtain ⟨seg, rest, h⟩ := ih
    by_cases hc : c = sep
    · exact ⟨[], seg :: rest, by simp [pySplit, h, hc]⟩
    · exact ⟨c :: seg, rest, by simp [pySplit, h, hc]⟩

/-- Splitting a list free of the separator yields the single segment. -/
theorem pySplit_of_not_mem (sep : Char) (l : List Char) (h : sep ∉ l) :
    pySplit sep l = [ l] := by
  induction l with
  | nil => rfl
  | cons c cs ih =>
    have hc : ¬ c = sep := fun hq => h (hq ▸ List.mem_cons_self c cs)
    have hcs : sep ∉ cs := fun hq => h (List.mem_cons_of_mem c hq)
    simp [pySplit, ih hcs, hc]

/-- Splitting a list containing the separator yields at least two
segments. -/
theorem pySplit_two_of_mem (sep : Char) (l : List Char) (h : sep ∈ l) :
    ∃ a b t, pySplit sep l = a :: b :: t := by
  induction l with
  | nil => cases h
  | cons c cs ih =>
    by_cases hc : c = sep
    · obtain ⟨seg, rest, hs⟩ := pySplit_ne_nil sep cs
      exact ⟨[], seg, rest, by simp [pySplit, hs, hc]⟩
    · have hcs : sep ∈ cs := by
        rcases List.mem_cons.mp h with hh | ht
        · exact absurd hh.symm hc
        · exact ht
      obtain ⟨a, b, t, h2⟩ := ih hcs
      exact ⟨c :: a, b, t, by simp [pySplit, h2, hc]⟩

/-- The last segment of the Python underscore-split is the substring after
the last separator occurrence. -/
theorem lastSeg_pySplit (sep : Char) (l : List Char) :
    lastSeg (pySplit sep l) = afterLastSep sep l := by
  induction l with
  | nil => rfl
  | cons c cs ih =>
    obtain ⟨seg, rest, hs⟩ := pySplit_ne_nil sep cs
    by_cases hm : sep ∈ cs
    · obtain ⟨a, b, t, h2⟩ := pySplit_two_of_mem sep cs hm
      rw [hs] at h2
      cases h2
      by_cases hc : c = sep
      · rw [show afterLastSep sep (c :: cs) = afterLastSep sep cs by
          simp [afterLastSep, hm], ← ih, hs]
        simp [pySplit, hs, hc, lastSeg]
      · rw [show afterLastSep sep (c :: cs) = afterLastSep sep cs by
          simp [afterLastSep, hm], ← ih, hs]
        simp [pySplit, hs, hc, lastSeg]
    · have h1 : pySplit sep cs = [ cs] := pySplit_of_not_mem sep cs hm
      rw [hs] at h1
      cases h1
      by_cases hc : c = sep
      · simp [pySplit, hs, hc, lastSeg, afterLastSep, hm]
      · simp [pySplit, hs, hc, lastSeg, afterLastSep, hm]

/-- C10 counterexample: the archive entry `a_b/c.xml` is renamed to
`b/c.xml` — the substring after its last underscore still contains a path
separator — so the extraction result is not flat for every entry. -/
theorem C10_flatness_counterexample :
    new_name "a_b/c.xml" = "b/c.xml"
    ∧ isFlatName (new_name "a_b/c.xml") = false := by
  constructor
  · decide
  · decide

/-- C10 (amended): each extracted entry is renamed to the substring of its
full entry path after the last underscore (the whole path when no
underscore occurs); the resulting directory is flat only for entries where
that substring contains no path separator. -/
theorem C10_unzip_rename (s : String) :
    new_name s = String.mk (afterLastSep '_' s.data)
    ∧ (('/' ∈ afterLastSep '_' s.data → False) → isFlatName (new_name s) = true) := by
  have heq : new_name s = String.mk (afterLastSep '_' s.data) := by
    unfold new_name
    rw [lastSeg_pySplit]
  refine ⟨heq, ?_⟩
  intro h
  have hnot : ¬ ('/' ∈ afterLastSep '_' s.data) := h
  rw [heq]
  simp [isFlatName, hnot]

/-- C10 witness: a compound-prefixed entry name without a separator after
its last underscore is renamed to a flat trailing segment. -/
theorem C10_unzip_rename_witness :
    new_name "PRG_punkty_adresowe_woj02.xml"
        = String.mk (afterLastSep '_' "PRG_punkty_adresowe_woj02.xml".data)
    ∧ isFlatName (new_name "PRG_punkty_adresowe_woj02.xml") = true :=
  ⟨(C10_unzip_rename "PRG_punkty_adresowe_woj02.xml").1,
   (C10_unzip_rename "PRG_punkty_adresowe_woj02.xml").2 (by decide)⟩
